import Mathlib

/-!
Shallow embedding of the two simulations of this repository:
birds.py (a 2D boids flocking simulation) and fireflies.py (an independent
random-walk blink animation).  Python floats are modelled as real numbers;
every call into the ambient random generator is modelled as an explicit
parameter holding the drawn value (jitter offsets, zero-speed impulse draws,
movement deltas, the boolean outcome of the blink-chance comparison).
Display and I2C glue code is out of scope.
-/

set_option maxHeartbeats 1000000

namespace Birds

noncomputable section

/-- `NUM_BIRDS` from birds.py. -/
def NUM_BIRDS : ℕ := 30

/-- `VISUAL_RANGE` from birds.py. -/
def VISUAL_RANGE : ℝ := 20

/-- `MIN_SEPARATION` from birds.py. -/
def MIN_SEPARATION : ℝ := 5

/-- `COHESION_WEIGHT` from birds.py. -/
def COHESION_WEIGHT : ℝ := 0.001

/-- `ALIGNMENT_WEIGHT` from birds.py. -/
def ALIGNMENT_WEIGHT : ℝ := 0.05

/-- `SEPARATION_WEIGHT` from birds.py. -/
def SEPARATION_WEIGHT : ℝ := 0.05

/-- `LEADER_FOLLOW_WEIGHT` from birds.py. -/
def LEADER_FOLLOW_WEIGHT : ℝ := 0.01

/-- `RANDOM_JITTER_MAGNITUDE` from birds.py. -/
def RANDOM_JITTER_MAGNITUDE : ℝ := 0.05

/-- `MAX_SPEED` from birds.py. -/
def MAX_SPEED : ℝ := 2.0

/-- `MIN_SPEED` from birds.py. -/
def MIN_SPEED : ℝ := 0.5

/-- The mutable state of one `Bird` object: position, velocity, and the
stored simulation area dimensions (`self.width`, `self.height`). -/
structure Bird where
  x : ℝ
  y : ℝ
  vx : ℝ
  vy : ℝ
  width : ℝ
  height : ℝ

instance : Inhabited Bird := ⟨⟨0, 0, 0, 0, 0, 0⟩⟩

/-- The random draws consumed by one `Bird.update` call: the two jitter
draws `random.uniform(-J, J)` and the two `random.uniform(-1, 1)` draws of
the zero-speed impulse branch (the latter are consumed only when that
branch is taken). -/
structure Draws where
  jx : ℝ
  jy : ℝ
  iu : ℝ
  iw : ℝ

instance : Inhabited Draws := ⟨⟨0, 0, 0, 0⟩⟩

/-- `Bird.__init__`: position draws are the results of
`random.uniform(0, width)` / `random.uniform(0, height)`, velocity is
`random.uniform(-1, 1) * MAX_SPEED` on each component, with `u`, `w` the
two unit draws. -/
def Bird.init (width height px py u w : ℝ) : Bird :=
  ⟨px, py, u * MAX_SPEED, w * MAX_SPEED, width, height⟩

/-- `Bird._distance`: Euclidean distance between two birds. -/
def dist (b o : Bird) : ℝ :=
  Real.sqrt ((b.x - o.x) ^ 2 + (b.y - o.y) ^ 2)

/-- `math.sqrt(vx**2 + vy**2)`: the speed expression used by `Bird.update`. -/
def speed (vx vy : ℝ) : ℝ :=
  Real.sqrt (vx ^ 2 + vy ^ 2)

/-- `Bird._get_neighbors`, looping over the flock with the running index
`j`; the Python `other_bird is not self` identity test is the index test
`j ≠ selfIdx`, since in `run_simulation` the bird occupies slot `selfIdx`
of the flock list. -/
def getNeighborsAux (self : Bird) : List Bird → ℕ → ℕ → List Bird
  | [], _, _ => []
  | o :: rest, selfIdx, j =>
    if j ≠ selfIdx ∧ dist self o < VISUAL_RANGE then
      o :: getNeighborsAux self rest selfIdx (j + 1)
    else
      getNeighborsAux self rest selfIdx (j + 1)

/-- The neighbor list of the bird in slot `i` of `flock`. -/
def neighborsAt (flock : List Bird) (i : ℕ) : List Bird :=
  getNeighborsAux (flock.getD i default) flock i 0

/-- `Bird._rule_cohesion`. -/
def rule_cohesion (self : Bird) (neighbors : List Bird) : ℝ × ℝ :=
  match neighbors with
  | [] => (0, 0)
  | _ =>
    (((neighbors.map Bird.x).sum / neighbors.length - self.x) * COHESION_WEIGHT,
     ((neighbors.map Bird.y).sum / neighbors.length - self.y) * COHESION_WEIGHT)

/-- `Bird._rule_alignment`. -/
def rule_alignment (self : Bird) (neighbors : List Bird) : ℝ × ℝ :=
  match neighbors with
  | [] => (0, 0)
  | _ =>
    (((neighbors.map Bird.vx).sum / neighbors.length - self.vx) * ALIGNMENT_WEIGHT,
     ((neighbors.map Bird.vy).sum / neighbors.length - self.vy) * ALIGNMENT_WEIGHT)

/-- The contribution of one neighbor inside the `Bird._rule_separation`
loop: `(self - other) / dist` when `dist < MIN_SEPARATION and dist > 0`,
nothing otherwise. -/
def sepContrib (self o : Bird) : ℝ × ℝ :=
  if dist self o < MIN_SEPARATION ∧ 0 < dist self o then
    ((self.x - o.x) / dist self o, (self.y - o.y) / dist self o)
  else (0, 0)

/-- `Bird._rule_separation`. -/
def rule_separation (self : Bird) (neighbors : List Bird) : ℝ × ℝ :=
  match neighbors with
  | [] => (0, 0)
  | _ =>
    ((neighbors.map fun o => (sepContrib self o).1).sum * SEPARATION_WEIGHT,
     (neighbors.map fun o => (sepContrib self o).2).sum * SEPARATION_WEIGHT)

/-- `Bird._rule_follow_leader`. -/
def rule_follow_leader (self : Bird) (leader : Option Bird) : ℝ × ℝ :=
  match leader with
  | none => (0, 0)
  | some l =>
    ((l.x - self.x) * LEADER_FOLLOW_WEIGHT, (l.y - self.y) * LEADER_FOLLOW_WEIGHT)

/-- The jitter lines of `Bird.update`: `self.vx += random.uniform(-J, J)`
with the drawn values in `d`. -/
def jitterStep (d : Draws) (b : Bird) : Bird :=
  Bird.mk b.x b.y (b.vx + d.jx) (b.vy + d.jy) b.width b.height

/-- The rule-application block of `Bird.update`: non-leaders add the four
steering forces to their velocity; the leader skips all rules. -/
def forceStep (neighbors : List Bird) (leader : Option Bird) (isLeader : Bool)
    (b : Bird) : Bird :=
  if isLeader then b
  else
    Bird.mk b.x b.y
      (b.vx + ((rule_cohesion b neighbors).1 + (rule_alignment b neighbors).1 +
               (rule_separation b neighbors).1 + (rule_follow_leader b leader).1))
      (b.vy + ((rule_cohesion b neighbors).2 + (rule_alignment b neighbors).2 +
               (rule_separation b neighbors).2 + (rule_follow_leader b leader).2))
      b.width b.height

/-- The speed-limiting block of `Bird.update`; `u`, `w` are the
`random.uniform(-1, 1)` draws of the zero-speed branch. -/
def clampSpeed (u w vx vy : ℝ) : ℝ × ℝ :=
  if MAX_SPEED < speed vx vy then
    (vx / speed vx vy * MAX_SPEED, vy / speed vx vy * MAX_SPEED)
  else if speed vx vy < MIN_SPEED then
    if 0 < speed vx vy then
      (vx / speed vx vy * MIN_SPEED, vy / speed vx vy * MIN_SPEED)
    else
      (u * MIN_SPEED, w * MIN_SPEED)
  else (vx, vy)

/-- The speed-limiting block as a step on a bird. -/
def clampStep (d : Draws) (b : Bird) : Bird :=
  Bird.mk b.x b.y (clampSpeed d.iu d.iw b.vx b.vy).1 (clampSpeed d.iu d.iw b.vx b.vy).2
    b.width b.height

/-- The position-integration lines of `Bird.update`:
`self.x += self.vx; self.y += self.vy`. -/
def moveStep (b : Bird) : Bird :=
  Bird.mk (b.x + b.vx) (b.y + b.vy) b.vx b.vy b.width b.height

/-- One axis of the boundary-bounce block of `Bird.update`: clamp to the
edge, reverse the velocity component and push it away from the wall by
`0.1`. -/
def bounceAxis (size pos vel : ℝ) : ℝ × ℝ :=
  if pos < 0 then (0, -vel + 0.1)
  else if size ≤ pos then (size - 1, -vel - 0.1)
  else (pos, vel)

/-- The boundary-bounce block of `Bird.update`, both axes. -/
def bounceStep (b : Bird) : Bird :=
  Bird.mk (bounceAxis b.width b.x b.vx).1 (bounceAxis b.height b.y b.vy).1
    (bounceAxis b.width b.x b.vx).2 (bounceAxis b.height b.y b.vy).2
    b.width b.height

/-- `Bird.update`: jitter, then steering rules (skipped for the leader),
then the speed clamp, position integration and boundary bounce. -/
def Bird.update (self : Bird) (neighbors : List Bird) (leader : Option Bird)
    (isLeader : Bool) (d : Draws) : Bird :=
  bounceStep (moveStep (clampStep d (forceStep neighbors leader isLeader (jitterStep d self))))

/-- The body of the per-bird loop of `run_simulation`:
`bird.update(flock, is_leader=(i == 0))`, with the bird in slot `i` of the
(current) flock list, the neighbor set drawn from that same list and the
leader read from its slot 0. -/
def updateAt (flock : List Bird) (i : ℕ) (d : Draws) : Bird :=
  Bird.update (flock.getD i default) (neighborsAt flock i) flock.head? (i == 0) d

/-- One tick of `run_simulation`: `for i, bird in enumerate(flock):
bird.update(flock, ...)` — each bird is replaced in the list as soon as it
is updated, so later birds read the already-updated state of earlier
birds. -/
def tickSeq (flock : List Bird) (ds : List Draws) : List Bird :=
  (List.range flock.length).foldl
    (fun cur i => cur.set i (updateAt cur i (ds.getD i default))) flock

/-- Modelled from the spec: the tick as the spec describes it — every
bird's update computed against the frozen pre-tick snapshot of the flock —
for comparison with `tickSeq`, the tick the source actually performs. -/
def tickFrozen (flock : List Bird) (ds : List Draws) : List Bird :=
  (List.range flock.length).map fun i => updateAt flock i (ds.getD i default)

/-- Modelled from the spec: the contribution of one close neighbor as the
spec's words describe it — the unit vector pointing from the neighbor to
self, scaled by `1 / distance` — for comparison with `sepContrib` from the
source. -/
def sepContribSpec (self o : Bird) : ℝ × ℝ :=
  if dist self o < MIN_SEPARATION ∧ 0 < dist self o then
    ((self.x - o.x) / dist self o * (1 / dist self o),
     (self.y - o.y) / dist self o * (1 / dist self o))
  else (0, 0)

/-- Modelled from the spec: the separation force as the spec's words
describe it, built from `sepContribSpec`, for comparison with
`rule_separation` from the source. -/
def rule_separation_spec (self : Bird) (neighbors : List Bird) : ℝ × ℝ :=
  match neighbors with
  | [] => (0, 0)
  | _ =>
    ((neighbors.map fun o => (sepContribSpec self o).1).sum * SEPARATION_WEIGHT,
     (neighbors.map fun o => (sepContribSpec self o).2).sum * SEPARATION_WEIGHT)

/-- Division that signals division by zero instead of defaulting, used to
state that every division the engine performs has a nonzero denominator. -/
def cdiv (a b : ℝ) : Option ℝ :=
  if b = 0 then none else some (a / b)

/-- `Bird._rule_cohesion` with every division checked. -/
def rule_cohesion_checked (self : Bird) (neighbors : List Bird) : Option (ℝ × ℝ) :=
  match neighbors with
  | [] => some (0, 0)
  | _ =>
    match cdiv (neighbors.map Bird.x).sum neighbors.length,
          cdiv (neighbors.map Bird.y).sum neighbors.length with
    | some cx, some cy =>
      some ((cx - self.x) * COHESION_WEIGHT, (cy - self.y) * COHESION_WEIGHT)
    | _, _ => none

/-- `Bird._rule_alignment` with every division checked. -/
def rule_alignment_checked (self : Bird) (neighbors : List Bird) : Option (ℝ × ℝ) :=
  match neighbors with
  | [] => some (0, 0)
  | _ =>
    match cdiv (neighbors.map Bird.vx).sum neighbors.length,
          cdiv (neighbors.map Bird.vy).sum neighbors.length with
    | some ax, some ay =>
      some ((ax - self.vx) * ALIGNMENT_WEIGHT, (ay - self.vy) * ALIGNMENT_WEIGHT)
    | _, _ => none

/-- One separation contribution with its divisions checked. -/
def sepContrib_checked (self o : Bird) : Option (ℝ × ℝ) :=
  if dist self o < MIN_SEPARATION ∧ 0 < dist self o then
    match cdiv (self.x - o.x) (dist self o), cdiv (self.y - o.y) (dist self o) with
    | some a, some b => some (a, b)
    | _, _ => none
  else some (0, 0)

/-- All separation contributions of a neighbor list, each with its
divisions checked. -/
def sepContribList_checked (self : Bird) : List Bird → Option (List (ℝ × ℝ))
  | [] => some []
  | o :: rest =>
    match sepContrib_checked self o, sepContribList_checked self rest with
    | some c, some cs => some (c :: cs)
    | _, _ => none

/-- `Bird._rule_separation` with every division checked. -/
def rule_separation_checked (self : Bird) (neighbors : List Bird) : Option (ℝ × ℝ) :=
  match neighbors with
  | [] => some (0, 0)
  | _ =>
    match sepContribList_checked self neighbors with
    | some cs =>
      some (((cs.map Prod.fst).sum) * SEPARATION_WEIGHT,
            ((cs.map Prod.snd).sum) * SEPARATION_WEIGHT)
    | none => none

/-- The speed-limiting block with every division checked. -/
def clampSpeed_checked (u w vx vy : ℝ) : Option (ℝ × ℝ) :=
  if MAX_SPEED < speed vx vy then
    match cdiv vx (speed vx vy), cdiv vy (speed vx vy) with
    | some a, some b => some (a * MAX_SPEED, b * MAX_SPEED)
    | _, _ => none
  else if speed vx vy < MIN_SPEED then
    if 0 < speed vx vy then
      match cdiv vx (speed vx vy), cdiv vy (speed vx vy) with
      | some a, some b => some (a * MIN_SPEED, b * MIN_SPEED)
      | _, _ => none
    else some (u * MIN_SPEED, w * MIN_SPEED)
  else some (vx, vy)

end

end Birds

namespace Fireflies

/-- `OLED_WIDTH` from fireflies.py. -/
def OLED_WIDTH : ℤ := 128

/-- `OLED_HEIGHT` from fireflies.py. -/
def OLED_HEIGHT : ℤ := 32

/-- `MOVE_SPEED` from fireflies.py. -/
def MOVE_SPEED : ℤ := 1

/-- `BLINK_DURATION` from fireflies.py. -/
def BLINK_DURATION : ℤ := 5

/-- The state of one `Firefly` object. -/
structure Firefly where
  x : ℤ
  y : ℤ
  is_lit : Bool
  blink_timer : ℤ

/-- `Firefly.__init__`: `px`, `py` are the `random.randint` position
draws; the firefly starts unlit with a zero countdown. -/
def Firefly.init (px py : ℤ) : Firefly :=
  ⟨px, py, false, 0⟩

/-- `Firefly.update`: move by the drawn deltas `dx`, `dy`
(`random.randint(-MOVE_SPEED, MOVE_SPEED)`), clamp to the screen, then
handle blinking; `blink` is the outcome of
`random.random() < BLINK_CHANCE`. -/
def Firefly.update (dx dy : ℤ) (blink : Bool) (f : Firefly) : Firefly :=
  let x1 := max 0 (min (f.x + dx) (OLED_WIDTH - 1))
  let y1 := max 0 (min (f.y + dy) (OLED_HEIGHT - 1))
  if f.is_lit then
    if f.blink_timer - 1 ≤ 0 then ⟨x1, y1, false, f.blink_timer - 1⟩
    else ⟨x1, y1, true, f.blink_timer - 1⟩
  else if blink then ⟨x1, y1, true, BLINK_DURATION⟩
  else ⟨x1, y1, f.is_lit, f.blink_timer⟩

/-- The lit/countdown invariant of a firefly: the countdown is
nonnegative and the lit flag holds exactly when the countdown is
positive. -/
def Inv (f : Firefly) : Prop :=
  0 ≤ f.blink_timer ∧ (f.is_lit = true ↔ 0 < f.blink_timer)

instance (f : Firefly) : Decidable (Inv f) := by
  unfold Inv; infer_instance

end Fireflies

namespace Birds

/-- Rewrite a square root at a concrete perfect square. -/
theorem sqrt_eq_num {a b : ℝ} (hb : 0 ≤ b) (h : a = b ^ 2) : Real.sqrt a = b := by
  rw [h, Real.sqrt_sq hb]

/-- Rescaling a nonzero velocity by `c / speed` produces speed exactly `c`. -/
theorem speed_scale (vx vy c : ℝ) (hc : 0 ≤ c) (hs : 0 < speed vx vy) :
    speed (vx / speed vx vy * c) (vy / speed vx vy * c) = c := by
  have hnn : (0 : ℝ) ≤ vx ^ 2 + vy ^ 2 := by positivity
  have hsq : speed vx vy ^ 2 = vx ^ 2 + vy ^ 2 := Real.sq_sqrt hnn
  have hne : speed vx vy ≠ 0 := ne_of_gt hs
  have key : (vx / speed vx vy * c) ^ 2 + (vy / speed vx vy * c) ^ 2 = c ^ 2 := by
    have expand : (vx / speed vx vy * c) ^ 2 + (vy / speed vx vy * c) ^ 2
        = (vx ^ 2 + vy ^ 2) / speed vx vy ^ 2 * c ^ 2 := by
      field_simp
      ring
    rw [expand, ← hsq, div_self (pow_ne_zero 2 hne), one_mul]
  rw [show speed (vx / speed vx vy * c) (vy / speed vx vy * c)
      = Real.sqrt ((vx / speed vx vy * c) ^ 2 + (vy / speed vx vy * c) ^ 2) from rfl,
    key, Real.sqrt_sq hc]

/-- A velocity whose components are unit draws scaled by `c` has speed at
most `c * √2`. -/
theorem speed_scale_le (u w c : ℝ) (hc : 0 ≤ c) (hu : |u| ≤ 1) (hw : |w| ≤ 1) :
    speed (u * c) (w * c) ≤ c * Real.sqrt 2 := by
  have hu1 := abs_le.mp hu
  have hw1 := abs_le.mp hw
  have hu2 : u ^ 2 ≤ 1 := by nlinarith [hu1.1, hu1.2]
  have hw2 : w ^ 2 ≤ 1 := by nlinarith [hw1.1, hw1.2]
  have h1 : (u * c) ^ 2 + (w * c) ^ 2 = (u ^ 2 + w ^ 2) * c ^ 2 := by ring
  have h2 : (u ^ 2 + w ^ 2) * c ^ 2 ≤ 2 * c ^ 2 := by nlinarith [sq_nonneg c]
  calc speed (u * c) (w * c)
      = Real.sqrt ((u ^ 2 + w ^ 2) * c ^ 2) := by rw [speed, h1]
    _ ≤ Real.sqrt (2 * c ^ 2) := Real.sqrt_le_sqrt h2
    _ = Real.sqrt 2 * Real.sqrt (c ^ 2) := Real.sqrt_mul (by norm_num) _
    _ = Real.sqrt 2 * c := by rw [Real.sqrt_sq hc]
    _ = c * Real.sqrt 2 := mul_comm _ _

/-- C1 (amended): the speed clamp keeps the speed inside
`[MIN_SPEED, MAX_SPEED]` provided the incoming speed is nonzero; the
`[MIN_SPEED, MAX_SPEED]` invariant holds right after the clamp step, not
after the full update, because the later boundary nudge can leave this
range. -/
theorem clampSpeed_speed_range (u w vx vy : ℝ) (h : vx ^ 2 + vy ^ 2 ≠ 0) :
    MIN_SPEED ≤ speed (clampSpeed u w vx vy).1 (clampSpeed u w vx vy).2 ∧
    speed (clampSpeed u w vx vy).1 (clampSpeed u w vx vy).2 ≤ MAX_SPEED := by
  have hnn : (0 : ℝ) ≤ vx ^ 2 + vy ^ 2 := by positivity
  have hpos : 0 < speed vx vy := by
    rw [speed]
    exact Real.sqrt_pos.mpr (lt_of_le_of_ne hnn (Ne.symm h))
  unfold clampSpeed
  rcases lt_or_le MAX_SPEED (speed vx vy) with h1 | h1
  · rw [if_pos h1]
    dsimp only
    rw [speed_scale vx vy MAX_SPEED (by norm_num [MAX_SPEED]) hpos]
    norm_num [MIN_SPEED, MAX_SPEED]
  · rcases lt_or_le (speed vx vy) MIN_SPEED with h2 | h2
    · rw [if_neg (not_lt.mpr h1), if_pos h2, if_pos hpos]
      dsimp only
      rw [speed_scale vx vy MIN_SPEED (by norm_num [MIN_SPEED]) hpos]
      norm_num [MIN_SPEED, MAX_SPEED]
    · rw [if_neg (not_lt.mpr h1), if_neg (not_lt.mpr h2)]
      exact ⟨h2, h1⟩

/-- Witness for `clampSpeed_speed_range` at the concrete velocity (3, 4). -/
theorem clampSpeed_speed_range_witness :
    (3 : ℝ) ^ 2 + 4 ^ 2 ≠ 0 ∧
    (MIN_SPEED ≤ speed (clampSpeed 0 0 3 4).1 (clampSpeed 0 0 3 4).2 ∧
     speed (clampSpeed 0 0 3 4).1 (clampSpeed 0 0 3 4).2 ≤ MAX_SPEED) :=
  ⟨by norm_num, clampSpeed_speed_range 0 0 3 4 (by norm_num)⟩

/-- C2 (amended): at a zero incoming velocity the clamp assigns each
component a fresh uniform draw in `[-1, 1]` scaled by `MIN_SPEED`, so the
post-clamp speed is `MIN_SPEED * √(u² + w²) ≤ MIN_SPEED * √2`; it equals
`MIN_SPEED` only for unit-norm draw pairs and stays 0 when both draws are
0. -/
theorem clampSpeed_zero_branch (u w : ℝ) (hu : |u| ≤ 1) (hw : |w| ≤ 1) :
    clampSpeed u w 0 0 = (u * MIN_SPEED, w * MIN_SPEED) ∧
    speed (u * MIN_SPEED) (w * MIN_SPEED) ≤ MIN_SPEED * Real.sqrt 2 := by
  constructor
  · unfold clampSpeed speed
    norm_num [MAX_SPEED, MIN_SPEED]
  · exact speed_scale_le u w MIN_SPEED (by norm_num [MIN_SPEED]) hu hw

/-- Witness for `clampSpeed_zero_branch` at the draws (1, 0). -/
theorem clampSpeed_zero_branch_witness :
    |(1 : ℝ)| ≤ 1 ∧ |(0 : ℝ)| ≤ 1 ∧
    (clampSpeed 1 0 0 0 = (1 * MIN_SPEED, 0 * MIN_SPEED) ∧
     speed (1 * MIN_SPEED) (0 * MIN_SPEED) ≤ MIN_SPEED * Real.sqrt 2) :=
  ⟨by norm_num, by norm_num, clampSpeed_zero_branch 1 0 (by norm_num) (by norm_num)⟩

/-- C2 (counterexample): when both zero-speed impulse draws are 0 the
velocity stays exactly (0, 0), so the post-clamp speed is 0, not
`MIN_SPEED`. -/
theorem zero_speed_branch_can_stay_zero :
    clampSpeed 0 0 0 0 = (0, 0) ∧
    speed (clampSpeed 0 0 0 0).1 (clampSpeed 0 0 0 0).2 ≠ MIN_SPEED := by
  have h : clampSpeed 0 0 0 0 = (0, 0) := by
    unfold clampSpeed speed
    norm_num [MAX_SPEED, MIN_SPEED]
  refine ⟨h, ?_⟩
  rw [h]
  unfold speed
  norm_num [MIN_SPEED]

end Birds

namespace Birds

/-- C3 (amended): each separation contribution of a neighbor at distance
`0 < d < MIN_SEPARATION` is the unit vector pointing from that neighbor to
self — its magnitude is exactly 1 whatever the distance, not `1/d`;
zero-distance neighbors still contribute nothing. -/
theorem sepContrib_unit_magnitude (self o : Bird) (h1 : 0 < dist self o)
    (h2 : dist self o < MIN_SEPARATION) :
    sepContrib self o = ((self.x - o.x) / dist self o, (self.y - o.y) / dist self o) ∧
    speed (sepContrib self o).1 (sepContrib self o).2 = 1 := by
  have he : sepContrib self o
      = ((self.x - o.x) / dist self o, (self.y - o.y) / dist self o) := by
    unfold sepContrib
    rw [if_pos ⟨h2, h1⟩]
  refine ⟨he, ?_⟩
  rw [he]
  have hd2 : dist self o ^ 2 = (self.x - o.x) ^ 2 + (self.y - o.y) ^ 2 :=
    Real.sq_sqrt (by positivity)
  have hne : dist self o ≠ 0 := ne_of_gt h1
  have key : ((self.x - o.x) / dist self o) ^ 2 + ((self.y - o.y) / dist self o) ^ 2 = 1 := by
    field_simp
    exact hd2.symm
  rw [show speed ((self.x - o.x) / dist self o) ((self.y - o.y) / dist self o)
      = Real.sqrt (((self.x - o.x) / dist self o) ^ 2 + ((self.y - o.y) / dist self o) ^ 2)
      from rfl, key, Real.sqrt_one]

/-- Witness for `sepContrib_unit_magnitude` at two birds at distance 2. -/
theorem sepContrib_unit_magnitude_witness :
    0 < dist (Bird.mk 0 0 0 0 128 32) (Bird.mk 1.2 1.6 0 0 128 32) ∧
    dist (Bird.mk 0 0 0 0 128 32) (Bird.mk 1.2 1.6 0 0 128 32) < MIN_SEPARATION ∧
    speed (sepContrib (Bird.mk 0 0 0 0 128 32) (Bird.mk 1.2 1.6 0 0 128 32)).1
      (sepContrib (Bird.mk 0 0 0 0 128 32) (Bird.mk 1.2 1.6 0 0 128 32)).2 = 1 := by
  have hd : dist (Bird.mk 0 0 0 0 128 32) (Bird.mk 1.2 1.6 0 0 128 32) = 2 := by
    have h4 : dist (Bird.mk 0 0 0 0 128 32) (Bird.mk 1.2 1.6 0 0 128 32)
        = Real.sqrt 4 := by
      unfold dist
      norm_num
    rw [h4]
    exact sqrt_eq_num (by norm_num) (by norm_num)
  have h1 : 0 < dist (Bird.mk 0 0 0 0 128 32) (Bird.mk 1.2 1.6 0 0 128 32) := by
    rw [hd]; norm_num
  have h2 : dist (Bird.mk 0 0 0 0 128 32) (Bird.mk 1.2 1.6 0 0 128 32) < MIN_SEPARATION := by
    rw [hd]; norm_num [MIN_SEPARATION]
  exact ⟨h1, h2, (sepContrib_unit_magnitude _ _ h1 h2).2⟩

/-- C3 (counterexample): for a neighbor at distance 2 the source's
separation force is `SEPARATION_WEIGHT` times the unit vector, which
differs from the spec's formula (unit vector additionally scaled by
`1/2`). -/
theorem separation_differs_from_spec_formula :
    rule_separation (Bird.mk 0 0 0 0 128 32) [Bird.mk 1.2 1.6 0 0 128 32] ≠
    rule_separation_spec (Bird.mk 0 0 0 0 128 32) [Bird.mk 1.2 1.6 0 0 128 32] := by
  have hd : dist (Bird.mk 0 0 0 0 128 32) (Bird.mk 1.2 1.6 0 0 128 32) = 2 := by
    have h4 : dist (Bird.mk 0 0 0 0 128 32) (Bird.mk 1.2 1.6 0 0 128 32)
        = Real.sqrt 4 := by
      unfold dist
      norm_num
    rw [h4]
    exact sqrt_eq_num (by norm_num) (by norm_num)
  have hcond : dist (Bird.mk 0 0 0 0 128 32) (Bird.mk 1.2 1.6 0 0 128 32) < MIN_SEPARATION ∧
      0 < dist (Bird.mk 0 0 0 0 128 32) (Bird.mk 1.2 1.6 0 0 128 32) := by
    rw [hd]; norm_num [MIN_SEPARATION]
  have hc : sepContrib (Bird.mk 0 0 0 0 128 32) (Bird.mk 1.2 1.6 0 0 128 32)
      = (-0.6, -0.8) := by
    unfold sepContrib
    rw [if_pos hcond, hd]
    norm_num
  have hcs : sepContribSpec (Bird.mk 0 0 0 0 128 32) (Bird.mk 1.2 1.6 0 0 128 32)
      = (-0.3, -0.4) := by
    unfold sepContribSpec
    rw [if_pos hcond, hd]
    norm_num
  have h1 : rule_separation (Bird.mk 0 0 0 0 128 32) [Bird.mk 1.2 1.6 0 0 128 32]
      = (-0.03, -0.04) := by
    simp only [rule_separation, List.map_cons, List.map_nil, List.sum_cons, List.sum_nil, hc]
    norm_num [SEPARATION_WEIGHT]
  have h2 : rule_separation_spec (Bird.mk 0 0 0 0 128 32) [Bird.mk 1.2 1.6 0 0 128 32]
      = (-0.015, -0.02) := by
    simp only [rule_separation_spec, List.map_cons, List.map_nil, List.sum_cons,
      List.sum_nil, hcs]
    norm_num [SEPARATION_WEIGHT]
  rw [h1, h2]
  norm_num [Prod.mk.injEq]

/-- One separation contribution never divides by zero. -/
theorem sepContrib_checked_eq (self o : Bird) :
    sepContrib_checked self o = some (sepContrib self o) := by
  unfold sepContrib_checked sepContrib cdiv
  by_cases hcond : dist self o < MIN_SEPARATION ∧ 0 < dist self o
  · rw [if_pos hcond, if_pos hcond, if_neg (ne_of_gt hcond.2), if_neg (ne_of_gt hcond.2)]
  · rw [if_neg hcond, if_neg hcond]

/-- C10: every division the flock engine performs is guarded: the checked
variants of cohesion, alignment, separation and the speed clamp (which
signal any division by zero) always succeed and agree with the unchecked
source functions. -/
theorem division_guards_total :
    (∀ self neighbors, rule_cohesion_checked self neighbors
        = some (rule_cohesion self neighbors)) ∧
    (∀ self neighbors, rule_alignment_checked self neighbors
        = some (rule_alignment self neighbors)) ∧
    (∀ self neighbors, rule_separation_checked self neighbors
        = some (rule_separation self neighbors)) ∧
    (∀ u w vx vy, clampSpeed_checked u w vx vy = some (clampSpeed u w vx vy)) := by
  have hmap : ∀ (self : Bird) (ns : List Bird),
      sepContribList_checked self ns = some (ns.map (sepContrib self)) := by
    intro self ns
    induction ns with
    | nil => rfl
    | cons a as ih => simp only [sepContribList_checked, sepContrib_checked_eq, ih, List.map_cons]
  refine ⟨?_, ?_, ?_, ?_⟩
  · intro self neighbors
    cases neighbors with
    | nil => rfl
    | cons a as =>
      have hlen : ((a :: as : List Bird).length : ℝ) ≠ 0 := by
        rw [List.length_cons]
        exact_mod_cast Nat.succ_ne_zero as.length
      simp only [rule_cohesion_checked, rule_cohesion, cdiv, if_neg hlen]
  · intro self neighbors
    cases neighbors with
    | nil => rfl
    | cons a as =>
      have hlen : ((a :: as : List Bird).length : ℝ) ≠ 0 := by
        rw [List.length_cons]
        exact_mod_cast Nat.succ_ne_zero as.length
      simp only [rule_alignment_checked, rule_alignment, cdiv, if_neg hlen]
  · intro self neighbors
    cases neighbors with
    | nil => rfl
    | cons a as =>
      simp only [rule_separation_checked, rule_separation, hmap, List.map_map]
      rfl
  · intro u w vx vy
    unfold clampSpeed_checked clampSpeed cdiv
    rcases lt_or_le MAX_SPEED (speed vx vy) with h1 | h1
    · have hs : speed vx vy ≠ 0 :=
        ne_of_gt (lt_trans (by norm_num [MAX_SPEED]) h1)
      rw [if_pos h1, if_pos h1, if_neg hs, if_neg hs]
    · rcases lt_or_le (speed vx vy) MIN_SPEED with h2 | h2
      · by_cases h3 : 0 < speed vx vy
        · rw [if_neg (not_lt.mpr h1), if_neg (not_lt.mpr h1), if_pos h2, if_pos h2,
            if_pos h3, if_pos h3, if_neg (ne_of_gt h3), if_neg (ne_of_gt h3)]
        · rw [if_neg (not_lt.mpr h1), if_neg (not_lt.mpr h1), if_pos h2, if_pos h2,
            if_neg h3, if_neg h3]
      · rw [if_neg (not_lt.mpr h1), if_neg (not_lt.mpr h1), if_neg (not_lt.mpr h2),
          if_neg (not_lt.mpr h2)]

end Birds

namespace Birds

/-- Numeric square-root fact used in several evaluations. -/
theorem sqrt_four : Real.sqrt 4 = 2 :=
  sqrt_eq_num (by norm_num) (by norm_num)

/-- Numeric square-root fact used in several evaluations. -/
theorem sqrt_100 : Real.sqrt 100 = 10 :=
  sqrt_eq_num (by norm_num) (by norm_num)

/-- Numeric square-root fact used in several evaluations. -/
theorem sqrt_121 : Real.sqrt 121 = 11 :=
  sqrt_eq_num (by norm_num) (by norm_num)

/-- The bounce step puts the coordinate of any post-integration position
into `[0, size)`. -/
theorem bounceAxis_pos_range (size pos vel : ℝ) (h : 1 ≤ size) :
    0 ≤ (bounceAxis size pos vel).1 ∧ (bounceAxis size pos vel).1 < size := by
  unfold bounceAxis
  rcases lt_or_le pos 0 with h1 | h1
  · rw [if_pos h1]
    dsimp only
    constructor
    · norm_num
    · linarith
  · rcases le_or_lt size pos with h2 | h2
    · rw [if_neg (not_lt.mpr h1), if_pos h2]
      dsimp only
      constructor
      · linarith
      · linarith
    · rw [if_neg (not_lt.mpr h1), if_neg (not_le.mpr h2)]
      exact ⟨h1, h2⟩

/-- C5 (amended): after the boundary-reflection step of a full update the
position lies in `[0, width) × [0, height)` (each axis handled
independently against the post-integration position); a reflected axis is
set to `0` or `size − 1`, but an in-range axis keeps its real-valued
coordinate, which may exceed `size − 1`. -/
theorem update_position_in_bounds (self : Bird) (nb : List Bird) (ld : Option Bird)
    (il : Bool) (d : Draws) (hw : 1 ≤ self.width) (hh : 1 ≤ self.height) :
    0 ≤ (Bird.update self nb ld il d).x ∧ (Bird.update self nb ld il d).x < self.width ∧
    0 ≤ (Bird.update self nb ld il d).y ∧ (Bird.update self nb ld il d).y < self.height := by
  have hfw : (forceStep nb ld il (jitterStep d self)).width = self.width := by
    unfold forceStep jitterStep
    split <;> rfl
  have hfh : (forceStep nb ld il (jitterStep d self)).height = self.height := by
    unfold forceStep jitterStep
    split <;> rfl
  unfold Bird.update bounceStep moveStep clampStep
  dsimp only
  rw [hfw, hfh]
  exact ⟨(bounceAxis_pos_range _ _ _ hw).1, (bounceAxis_pos_range _ _ _ hw).2,
    (bounceAxis_pos_range _ _ _ hh).1, (bounceAxis_pos_range _ _ _ hh).2⟩

/-- Witness for `update_position_in_bounds` at a concrete bird. -/
theorem update_position_in_bounds_witness :
    1 ≤ (Bird.mk 5 6 1 0 128 32).width ∧ 1 ≤ (Bird.mk 5 6 1 0 128 32).height ∧
    (0 ≤ (Bird.update (Bird.mk 5 6 1 0 128 32) [] none true ⟨0, 0, 0, 0⟩).x ∧
     (Bird.update (Bird.mk 5 6 1 0 128 32) [] none true ⟨0, 0, 0, 0⟩).x
       < (Bird.mk 5 6 1 0 128 32).width ∧
     0 ≤ (Bird.update (Bird.mk 5 6 1 0 128 32) [] none true ⟨0, 0, 0, 0⟩).y ∧
     (Bird.update (Bird.mk 5 6 1 0 128 32) [] none true ⟨0, 0, 0, 0⟩).y
       < (Bird.mk 5 6 1 0 128 32).height) :=
  ⟨by show (1 : ℝ) ≤ 128; norm_num, by show (1 : ℝ) ≤ 32; norm_num,
    update_position_in_bounds (Bird.mk 5 6 1 0 128 32) [] none true ⟨0, 0, 0, 0⟩
      (by show (1 : ℝ) ≤ 128; norm_num) (by show (1 : ℝ) ≤ 32; norm_num)⟩

/-- C6 (amended): a freshly constructed bird has its position draws as
coordinates (in bounds whenever the draws are) and velocity components
`u * MAX_SPEED`, `w * MAX_SPEED` for uniform draws `u, w ∈ [-1, 1]`; its
initial speed is therefore at most `MAX_SPEED * √2`, and need not equal
`MAX_SPEED`. -/
theorem init_bounds_and_speed (W H px py u w : ℝ) (h1 : 0 ≤ px) (h2 : px ≤ W)
    (h3 : 0 ≤ py) (h4 : py ≤ H) (hu : |u| ≤ 1) (hw : |w| ≤ 1) :
    0 ≤ (Bird.init W H px py u w).x ∧ (Bird.init W H px py u w).x ≤ W ∧
    0 ≤ (Bird.init W H px py u w).y ∧ (Bird.init W H px py u w).y ≤ H ∧
    speed (Bird.init W H px py u w).vx (Bird.init W H px py u w).vy
      ≤ MAX_SPEED * Real.sqrt 2 := by
  refine ⟨h1, h2, h3, h4, ?_⟩
  show speed (u * MAX_SPEED) (w * MAX_SPEED) ≤ MAX_SPEED * Real.sqrt 2
  exact speed_scale_le u w MAX_SPEED (by norm_num [MAX_SPEED]) hu hw

/-- Witness for `init_bounds_and_speed` at concrete draws. -/
theorem init_bounds_and_speed_witness :
    (0 : ℝ) ≤ 5 ∧ (5 : ℝ) ≤ 128 ∧ (0 : ℝ) ≤ 6 ∧ (6 : ℝ) ≤ 32 ∧
    |(1 : ℝ)| ≤ 1 ∧ |(0 : ℝ)| ≤ 1 ∧
    (0 ≤ (Bird.init 128 32 5 6 1 0).x ∧ (Bird.init 128 32 5 6 1 0).x ≤ 128 ∧
     0 ≤ (Bird.init 128 32 5 6 1 0).y ∧ (Bird.init 128 32 5 6 1 0).y ≤ 32 ∧
     speed (Bird.init 128 32 5 6 1 0).vx (Bird.init 128 32 5 6 1 0).vy
       ≤ MAX_SPEED * Real.sqrt 2) :=
  ⟨by norm_num, by norm_num, by norm_num, by norm_num, by norm_num, by norm_num,
    init_bounds_and_speed 128 32 5 6 1 0 (by norm_num) (by norm_num) (by norm_num)
      (by norm_num) (by norm_num) (by norm_num)⟩

/-- C6 (counterexample): with both velocity draws equal to 1 the initial
velocity is `(MAX_SPEED, MAX_SPEED)`, whose magnitude is `√8 ≠ MAX_SPEED`,
so the initial speed does not equal `MAX_SPEED`. -/
theorem initial_speed_ne_max_speed :
    speed (Bird.init 128 32 5 5 1 1).vx (Bird.init 128 32 5 5 1 1).vy ≠ MAX_SPEED := by
  show speed (1 * MAX_SPEED) (1 * MAX_SPEED) ≠ MAX_SPEED
  have h8 : speed (1 * MAX_SPEED) (1 * MAX_SPEED) = Real.sqrt 8 := by
    unfold speed
    norm_num [MAX_SPEED]
  have h2 : MAX_SPEED = Real.sqrt 4 := by
    rw [sqrt_four]
    norm_num [MAX_SPEED]
  rw [h8, h2]
  exact ne_of_gt (Real.sqrt_lt_sqrt (by norm_num) (by norm_num))

/-- The first bird of the flock (index 0) is the leader: its update skips
all steering rules. -/
theorem updateAt_leader (flock : List Bird) (d : Draws) :
    updateAt flock 0 d
      = bounceStep (moveStep (clampStep d (jitterStep d (flock.getD 0 default)))) := rfl

/-- C7: a bird whose integration step ends at x = −0.3 with vx = −1.0 is
reflected to x = 0 with its horizontal velocity sign-flipped and nudged:
vx = 1.0 + 0.1 (the source always applies the 0.1 wall nudge). -/
theorem boundary_reflection_example :
    (updateAt [Bird.mk 0.7 10 (-1) 0 128 32] 0 ⟨0, 0, 0, 0⟩).x = 0 ∧
    (updateAt [Bird.mk 0.7 10 (-1) 0 128 32] 0 ⟨0, 0, 0, 0⟩).vx = 1.0 + 0.1 := by
  rw [updateAt_leader]
  norm_num [List.getD_cons_zero, jitterStep, clampStep, moveStep, bounceStep, clampSpeed,
    bounceAxis, speed, MAX_SPEED, MIN_SPEED, Real.sqrt_one]

/-- C1 (counterexample): a leader at x = 0.5 moving with velocity (−2, 0)
passes the speed clamp at speed exactly `MAX_SPEED`, but the wall bounce
flips and nudges its velocity to (2.1, 0), so the post-update speed is
2.1 > `MAX_SPEED`. -/
theorem speed_after_update_can_exceed_max :
    MAX_SPEED < speed (updateAt [Bird.mk 0.5 10 (-2) 0 128 32] 0 ⟨0, 0, 0, 0⟩).vx
      (updateAt [Bird.mk 0.5 10 (-2) 0 128 32] 0 ⟨0, 0, 0, 0⟩).vy := by
  have hs441 : Real.sqrt 4.41 = 2.1 := sqrt_eq_num (by norm_num) (by norm_num)
  have hupd : updateAt [Bird.mk 0.5 10 (-2) 0 128 32] 0 ⟨0, 0, 0, 0⟩
      = Bird.mk 0 10 2.1 0 128 32 := by
    rw [updateAt_leader]
    norm_num [List.getD_cons_zero, jitterStep, clampStep, moveStep, bounceStep, clampSpeed,
      bounceAxis, speed, MAX_SPEED, MIN_SPEED, sqrt_four]
  rw [hupd]
  show MAX_SPEED < speed 2.1 0
  have hs : speed (2.1 : ℝ) 0 = 2.1 := by
    unfold speed
    rw [show ((2.1 : ℝ) ^ 2 + 0 ^ 2) = 4.41 by norm_num, hs441]
  rw [hs]
  norm_num [MAX_SPEED]

/-- C5 (counterexample): a leader at x = 126.4 with vx = 1.1 integrates to
x = 127.5, which triggers no reflection (it is inside `[0, width)`), so
the post-update position exceeds `width − 1 = 127`. -/
theorem position_can_exceed_width_sub_one :
    (updateAt [Bird.mk 126.4 10 1.1 0 128 32] 0 ⟨0, 0, 0, 0⟩).x = 127.5 ∧
    (updateAt [Bird.mk 126.4 10 1.1 0 128 32] 0 ⟨0, 0, 0, 0⟩).width = 128 ∧
    ¬((127.5 : ℝ) ≤ 128 - 1) := by
  have hupd : updateAt [Bird.mk 126.4 10 1.1 0 128 32] 0 ⟨0, 0, 0, 0⟩
      = Bird.mk 127.5 10 1.1 0 128 32 := by
    rw [updateAt_leader]
    norm_num [List.getD_cons_zero, jitterStep, clampStep, moveStep, bounceStep, clampSpeed,
      bounceAxis, speed, MAX_SPEED, MIN_SPEED, sqrt_121, sqrt_100]
  rw [hupd]
  norm_num

end Birds

namespace Birds

/-- C4 (amended): a tick updates the birds sequentially in place — the
second bird of a two-bird flock computes its neighbors and leader from the
list in which the first bird (the leader) has already been replaced by its
updated state, not from the pre-tick snapshot. -/
theorem tickSeq_pair_updates_sequentially (b0 b1 : Bird) (ds : List Draws) :
    tickSeq [b0, b1] ds
      = [updateAt [b0, b1] 0 (ds.getD 0 default),
         updateAt [updateAt [b0, b1] 0 (ds.getD 0 default), b1] 1 (ds.getD 1 default)] := rfl

/-- C4 (counterexample): for a concrete two-bird flock with all random
draws zero, the tick the source performs (sequential, in place) moves the
second bird to x = 101.12, while the spec's frozen-snapshot tick moves it
to x = 101.1 — the second bird's forces see the leader's already-updated
position, so the tick is not computed from a frozen pre-tick snapshot. -/
theorem tickSeq_ne_tickFrozen :
    ((tickSeq [Bird.mk 10 10 2 0 128 32, Bird.mk 100 10 2 0 128 32]
        [Draws.mk 0 0 0 0, Draws.mk 0 0 0 0]).getD 1 default).x ≠
    ((tickFrozen [Bird.mk 10 10 2 0 128 32, Bird.mk 100 10 2 0 128 32]
        [Draws.mk 0 0 0 0, Draws.mk 0 0 0 0]).getD 1 default).x := by
  have h784 : Real.sqrt 784 = 28 := sqrt_eq_num (by norm_num) (by norm_num)
  have h625 : Real.sqrt 625 = 25 := sqrt_eq_num (by norm_num) (by norm_num)
  have h0 : updateAt [Bird.mk 10 10 2 0 128 32, Bird.mk 100 10 2 0 128 32] 0
      (Draws.mk 0 0 0 0) = Bird.mk 12 10 2 0 128 32 := by
    rw [updateAt_leader]
    norm_num [List.getD_cons_zero, jitterStep, clampStep, moveStep, bounceStep, clampSpeed,
      bounceAxis, speed, MAX_SPEED, MIN_SPEED, sqrt_four]
  have hdA : dist (Bird.mk 100 10 2 0 128 32) (Bird.mk 12 10 2 0 128 32) = 88 := by
    norm_num [dist, show Real.sqrt 7744 = 88 from sqrt_eq_num (by norm_num) (by norm_num)]
  have hdB : dist (Bird.mk 100 10 2 0 128 32) (Bird.mk 10 10 2 0 128 32) = 90 := by
    norm_num [dist, show Real.sqrt 8100 = 90 from sqrt_eq_num (by norm_num) (by norm_num)]
  have hnA : neighborsAt [Bird.mk 12 10 2 0 128 32, Bird.mk 100 10 2 0 128 32] 1 = [] := by
    norm_num [neighborsAt, getNeighborsAux, List.getD_cons_succ, List.getD_cons_zero,
      hdA, VISUAL_RANGE]
  have hnB : neighborsAt [Bird.mk 10 10 2 0 128 32, Bird.mk 100 10 2 0 128 32] 1 = [] := by
    norm_num [neighborsAt, getNeighborsAux, List.getD_cons_succ, List.getD_cons_zero,
      hdB, VISUAL_RANGE]
  have h1s : updateAt [Bird.mk 12 10 2 0 128 32, Bird.mk 100 10 2 0 128 32] 1
      (Draws.mk 0 0 0 0) = Bird.mk 101.12 10 1.12 0 128 32 := by
    unfold updateAt
    rw [hnA]
    norm_num [List.getD_cons_succ, List.getD_cons_zero, List.head?_cons, Bird.update,
      forceStep, jitterStep, clampStep, moveStep, bounceStep, clampSpeed, bounceAxis, speed,
      rule_cohesion, rule_alignment, rule_separation, rule_follow_leader,
      MAX_SPEED, MIN_SPEED, LEADER_FOLLOW_WEIGHT, h784, h625]
  have h1f : updateAt [Bird.mk 10 10 2 0 128 32, Bird.mk 100 10 2 0 128 32] 1
      (Draws.mk 0 0 0 0) = Bird.mk 101.1 10 1.1 0 128 32 := by
    unfold updateAt
    rw [hnB]
    norm_num [List.getD_cons_succ, List.getD_cons_zero, List.head?_cons, Bird.update,
      forceStep, jitterStep, clampStep, moveStep, bounceStep, clampSpeed, bounceAxis, speed,
      rule_cohesion, rule_alignment, rule_separation, rule_follow_leader,
      MAX_SPEED, MIN_SPEED, LEADER_FOLLOW_WEIGHT, sqrt_121, sqrt_100]
  have hseq : tickSeq [Bird.mk 10 10 2 0 128 32, Bird.mk 100 10 2 0 128 32]
      [Draws.mk 0 0 0 0, Draws.mk 0 0 0 0]
      = [Bird.mk 12 10 2 0 128 32, Bird.mk 101.12 10 1.12 0 128 32] := by
    rw [tickSeq]
    norm_num [List.range_succ, List.foldl_append, List.foldl_cons, List.foldl_nil,
      List.getD_cons_zero, List.getD_cons_succ, List.set_cons_zero, List.set_cons_succ,
      h0, h1s]
  have hfro : tickFrozen [Bird.mk 10 10 2 0 128 32, Bird.mk 100 10 2 0 128 32]
      [Draws.mk 0 0 0 0, Draws.mk 0 0 0 0]
      = [Bird.mk 12 10 2 0 128 32, Bird.mk 101.1 10 1.1 0 128 32] := by
    rw [tickFrozen]
    norm_num [List.range_succ, List.map_append, List.map_cons, List.map_nil,
      List.getD_cons_zero, List.getD_cons_succ, h0, h1f]
  rw [hseq, hfro]
  norm_num [List.getD_cons_succ, List.getD_cons_zero]

end Birds

namespace Fireflies

/-- C8: the lit/countdown invariant — countdown nonnegative and the lit
flag true exactly when the countdown is positive — holds at construction
and is preserved by every update, whatever the movement deltas and the
blink draw. -/
theorem inv_holds_init_and_update :
    (∀ px py, Inv (Firefly.init px py)) ∧
    (∀ (f : Firefly) (dx dy : ℤ) (blink : Bool), Inv f → Inv (Firefly.update dx dy blink f)) := by
  constructor
  · intro px py
    exact ⟨le_refl 0, by simp [Firefly.init]⟩
  · intro f dx dy blink hf
    obtain ⟨ht, hl⟩ := hf
    unfold Firefly.update
    by_cases hlit : f.is_lit = true
    · rw [if_pos hlit]
      have htpos : 0 < f.blink_timer := hl.mp hlit
      by_cases hz : f.blink_timer - 1 ≤ 0
      · rw [if_pos hz]
        constructor
        · dsimp only
          omega
        · dsimp only
          constructor
          · intro h
            exact absurd h (by simp)
          · intro h
            omega
      · rw [if_neg hz]
        constructor
        · dsimp only
          omega
        · dsimp only
          constructor
          · intro _
            omega
          · intro _
            rfl
    · rw [if_neg hlit]
      have hz : f.blink_timer = 0 := by
        have : ¬0 < f.blink_timer := fun h => hlit (hl.mpr h)
        omega
      by_cases hb : blink = true
      · rw [if_pos hb]
        exact ⟨by norm_num [BLINK_DURATION], by norm_num [BLINK_DURATION]⟩
      · rw [if_neg hb]
        refine ⟨ht, ?_⟩
        dsimp only
        exact hl

/-- Witness for `inv_holds_init_and_update`: the invariant at a concrete
firefly and after one concrete update. -/
theorem inv_holds_init_and_update_witness :
    Inv (Firefly.init 3 4) ∧ Inv (Firefly.update 1 (-1) true (Firefly.init 3 4)) :=
  ⟨inv_holds_init_and_update.1 3 4,
    inv_holds_init_and_update.2 (Firefly.init 3 4) 1 (-1) true (by decide)⟩

/-- C9: a lit firefly with countdown 1 is unlit with countdown 0 after
exactly one update, and does not re-light on that tick for any value of
the blink draw or of the movement deltas. -/
theorem lit_countdown_one_turns_off (f : Firefly) (hl : f.is_lit = true)
    (ht : f.blink_timer = 1) (dx dy : ℤ) (blink : Bool) :
    (Firefly.update dx dy blink f).is_lit = false ∧
    (Firefly.update dx dy blink f).blink_timer = 0 := by
  unfold Firefly.update
  rw [if_pos hl, ht]
  norm_num

/-- Witness for `lit_countdown_one_turns_off` at a concrete firefly, with
the blink draw true. -/
theorem lit_countdown_one_turns_off_witness :
    (Firefly.mk 5 5 true 1).is_lit = true ∧ (Firefly.mk 5 5 true 1).blink_timer = 1 ∧
    ((Firefly.update 1 0 true (Firefly.mk 5 5 true 1)).is_lit = false ∧
     (Firefly.update 1 0 true (Firefly.mk 5 5 true 1)).blink_timer = 0) :=
  ⟨rfl, rfl, lit_countdown_one_turns_off (Firefly.mk 5 5 true 1) rfl rfl 1 0 true⟩

end Fireflies
